import Mathlib

/-!
Shallow embedding of `src/pubmed.py` (`PubMedAPIWrapper`): the PubMed search
wrapper of the NursingEducationSimulacrum repository.

Modelling conventions:
* Parsed XML/JSON documents (the output of `xmltodict.parse` / `json.loads`)
  are modelled by the inductive `XVal`: a string, a mapping (association
  list), or a list.  `xmltodict` guarantees that attribute values (keys
  starting with `@`) and text nodes (`#text`) are strings; the embedding
  relies on that guarantee in the few places noted below.
* Python exceptions are modelled with `Except`/`Option`.  A subscript
  `d[k]` raises `KeyError` on a mapping without the key and `TypeError` on a
  non-mapping; the distinction matters because `_parse_article` catches only
  `KeyError` at one place, so `subscr` reports which of the two occurred.
* The HTTP transport is an oracle (`Env`): the search endpoint's response,
  per-uid per-attempt detail-fetch responses, and per-uid citation responses.
* The mutable `sleep_time` field of the wrapper object is threaded
  explicitly; every `time.sleep` call is logged, so backoff behaviour is
  observable in the model.
* Python floats are modelled by `ℚ`; the only arithmetic performed on
  `sleep_time` is doubling, which is exact in both.
-/

set_option autoImplicit false

namespace PubMed

/-- A parsed XML/JSON value as produced by `xmltodict.parse` / `json.loads`:
a string, a mapping from keys to values, or a list of values. -/
inductive XVal where
  | str : String → XVal
  | obj : List (String × XVal) → XVal
  | arr : List XVal → XVal

/-- Which Python exception a subscript raised: `KeyError` (missing key on a
mapping) or `TypeError` (subscripting a non-mapping with a string key). -/
inductive LookupErr where
  | keyErr : LookupErr
  | typeErr : LookupErr
deriving DecidableEq

/-- `d[k]` on a parsed document: returns the value, or reports `KeyError` /
`TypeError` exactly as Python would. -/
def subscr : XVal → String → Except LookupErr XVal
  | .obj fs, k =>
    match fs.find? (fun p => p.1 = k) with
    | some p => .ok p.2
    | none => .error .keyErr
  | _, _ => .error .typeErr

/-- Python `k in d` for the three shapes: key membership on a mapping,
substring test on a string, element equality on a list (a string compares
equal only to a string). -/
def pyIn (k : String) : XVal → Bool
  | .obj fs => fs.any (fun p => p.1 = k)
  | .str s => (s.toList.tails.any (fun t => k.toList.isPrefixOf t))
  | .arr items => items.any (fun x => match x with | .str s => s = k | _ => false)

/-- Python `d.get(k, default)` on a mapping (association-list form). -/
def dictGetD (fs : List (String × XVal)) (k : String) (default : XVal) : XVal :=
  match fs.find? (fun p => p.1 = k) with
  | some p => p.2
  | none => default

/-- Python whitespace characters (the ASCII range of `\s` / `str.strip`). -/
def pyIsSpace (c : Char) : Bool :=
  c = ' ' || c = '\t' || c = '\n' || c = '\r' || c = '\x0b' || c = '\x0c'

/-- `str.strip()` on ASCII whitespace: drop whitespace from both ends. -/
def pyStrip (s : String) : String :=
  String.mk (((s.toList.dropWhile pyIsSpace).reverse.dropWhile pyIsSpace).reverse)

/-- One step of `re.sub(r"\s+", "+", query)`: the flag records whether the
previous character was whitespace (i.e. we are inside a run that has already
emitted its single `+`). -/
def collapseAux : Bool → List Char → List Char
  | _, [] => []
  | inRun, c :: rest =>
    if pyIsSpace c then
      if inRun then collapseAux true rest
      else '+' :: collapseAux true rest
    else c :: collapseAux false rest

/-- `re.sub(r"\s+", "+", query)` (line 50 of `pubmed.py`): every maximal run
of whitespace becomes a single `+`. -/
def collapse_ws (q : String) : String :=
  String.mk (collapseAux false q.toList)

/-- `MAX_QUERY_LENGTH` (line 42 of `pubmed.py`). -/
def MAX_QUERY_LENGTH : Nat := 128

/-- The term `run` hands to `load`: the whitespace-collapsed query truncated
to `MAX_QUERY_LENGTH` characters (`query[:self.MAX_QUERY_LENGTH]`, line 53). -/
def submitted_term (q : String) : String :=
  String.mk ((collapse_ws q).toList.take MAX_QUERY_LENGTH)

/-- The result of one detail-fetch attempt (`urllib.request.urlopen` on the
efetch URL): a parsed document, an `HTTPError` with a status code, or a
non-HTTP transport error (e.g. `URLError`), which Python's
`except urllib.error.HTTPError` clause does not catch. -/
inductive FetchResult where
  | ok : XVal → FetchResult
  | httpError : Nat → FetchResult
  | netErr : FetchResult

/-- An error escaping `retrieve_article`: an HTTP status error, a non-HTTP
transport error, or any exception raised while parsing the article (XML
shape errors, citation failures, ...). -/
inductive Err where
  | http : Nat → Err
  | net : Err
  | parse : Err
deriving DecidableEq

/-- Observable outcome of the retry loop of `retrieve_article`
(lines 121–138): the result, the number of requests issued to the detail
endpoint, the log of `time.sleep` durations, and the final value of the
wrapper's mutable `sleep_time` field. -/
structure LoopOut where
  result : Except Err XVal
  requests : Nat
  sleeps : List ℚ
  sleep_time : ℚ

/-- The retry loop of `retrieve_article`, recursing on
`remaining = max_retry - retry` (the loop guard is
`e.code == 429 and retry < self.max_retry`).  `attempt` is the 0-based index
of the current request into the oracle.  On a 429 with retries remaining the
code sleeps for `sleep_time`, doubles the field in place, and retries; any
other `HTTPError`, a 429 past the ceiling, or a non-HTTP error is raised. -/
def retryAux (oracle : Nat → FetchResult) : Nat → Nat → ℚ → LoopOut
  | remaining, attempt, st =>
    match oracle attempt with
    | .ok doc => ⟨.ok doc, 1, [], st⟩
    | .netErr => ⟨.error .net, 1, [], st⟩
    | .httpError code =>
      if code = 429 then
        match remaining with
        | 0 => ⟨.error (.http code), 1, [], st⟩
        | r + 1 =>
          let rest := retryAux oracle r (attempt + 1) (st * 2)
          ⟨rest.result, rest.requests + 1, st :: rest.sleeps, rest.sleep_time⟩
      else ⟨.error (.http code), 1, [], st⟩

/-- The retry loop entered with `retry = 0` and the wrapper's current
`sleep_time` value `st`. -/
def retryLoop (oracle : Nat → FetchResult) (max_retry : Nat) (st : ℚ) : LoopOut :=
  retryAux oracle max_retry 0 st

/-- The dictionary returned by `_parse_article` (lines 182–188). -/
structure Article where
  uid : String
  pmc_id : Option String
  Summary : String
  Citation : String
  title : String
deriving DecidableEq

/-- The `{URL, Summary, Citation}` dictionary assembled by `run` (line 58). -/
structure ResultDoc where
  URL : String
  Summary : String
  Citation : String
deriving DecidableEq

/-- The chained subscripts
`text_dict["PubmedArticleSet"]["PubmedArticle"]["MedlineCitation"]["Article"]`
(lines 145–147); the first raised exception wins, as in Python. -/
def articleChain (d : XVal) : Except LookupErr XVal := do
  let a ← subscr d "PubmedArticleSet"
  let b ← subscr a "PubmedArticle"
  let c ← subscr b "MedlineCitation"
  subscr c "Article"

/-- The fallback chain
`text_dict["PubmedArticleSet"]["PubmedBookArticle"]["BookDocument"]`
(line 149). -/
def bookChain (d : XVal) : Except LookupErr XVal := do
  let a ← subscr d "PubmedArticleSet"
  let b ← subscr a "PubmedBookArticle"
  subscr b "BookDocument"

/-- Lines 144–149: try the standard article shape; only a `KeyError` is
caught and routed to the book-document shape, whose own failures (and any
`TypeError` of the first chain) escape to the caller. -/
def getAr (d : XVal) : Except Unit XVal :=
  match articleChain d with
  | .ok ar => .ok ar
  | .error .keyErr =>
    match bookChain d with
    | .ok ar => .ok ar
    | .error _ => .error ()
  | .error .typeErr => .error ()

/-- `ar.get("Abstract", {}).get("AbstractText", [])` (line 150): `ar` must
be a mapping (otherwise Python raises `AttributeError` on `.get`), and so
must the value found under `"Abstract"`. -/
def get_abstract_text (ar : XVal) : Except Unit XVal := do
  match ar with
  | .obj fs =>
    match dictGetD fs "Abstract" (.obj []) with
    | .obj afs => .ok (dictGetD afs "AbstractText" (.arr []))
    | _ => .error ()
  | _ => .error ()

/-- One iteration of the block loop (lines 157–164) on one element `txt` of
the `AbstractText` list: build the `@NlmCategory`/`@Label` prefix, then emit
`prefix + txt["#text"]` if the block has a text field, nothing otherwise.
`.error` means the iteration raised (e.g. `txt[k]` on a non-mapping after a
substring hit of `k in txt`, or a non-string value concatenated onto the
prefix — `xmltodict` makes attribute and text values strings, so non-string
values are modelled as the `TypeError` Python would raise on `+`). -/
def blockStep (txt : XVal) : Except Unit (Option String) := do
  let p1 ←
    if pyIn "@NlmCategory" txt then
      match subscr txt "@NlmCategory" with
      | .ok (.str c) => Except.ok (c ++ ": ")
      | _ => Except.error ()
    else Except.ok ""
  let p2 ←
    if pyIn "@Label" txt then
      match subscr txt "@Label" with
      | .ok (.str l) => Except.ok (p1 ++ (l ++ ": "))
      | _ => Except.error ()
    else Except.ok p1
  if pyIn "#text" txt then
    match subscr txt "#text" with
    | .ok (.str t) => Except.ok (some (p2 ++ t))
    | _ => Except.error ()
  else Except.ok none

/-- Accumulating one block of the `AbstractText` sequence into the
`summaries` list (lines 156–164): a block with a text field appends its
line, a block without one appends nothing, an exception aborts. -/
def blockFold (acc : List String) (txt : XVal) : Except Unit (List String) := do
  match ← blockStep txt with
  | some s => pure (acc ++ [s])
  | none => pure acc

/-- Lines 151–165: the three abstract shapes.  A plain string is the
summary; a single structured block contributes its `#text` with default
`""`; anything else is iterated as a sequence of blocks whose non-empty
contributions are joined by a newline. -/
def summaryOf (abstract_text : XVal) : Except Unit String :=
  match abstract_text with
  | .str s => .ok s
  | .obj fs =>
    match dictGetD fs "#text" (.str "") with
    | .str t => .ok t
    | _ => .error ()
  | .arr items => do
    let summaries ← items.foldlM blockFold ([] : List String)
    pure (String.intercalate "\n" summaries)

/-- One entry of the comprehension
`[x["#text"] for x in article_ids if x["@IdType"] == "pmc"]` (line 168):
`x["@IdType"]` raises on a non-mapping entry or a missing key (`none`); a
non-string type value simply compares unequal to `"pmc"`; a matching entry
without a string `#text` raises.  `xmltodict` makes `#text` a string, so the
non-string `#text` corner is modelled as the error Python's later use of the
value cannot hit in practice. -/
def pmcStep (x : XVal) (acc : Option (List String)) : Option (List String) := do
  let l ← acc
  match subscr x "@IdType" with
  | .error _ => none
  | .ok v =>
    match v with
    | .str t =>
      if t = "pmc" then
        match subscr x "#text" with
        | .ok (.str s) => some (s :: l)
        | _ => none
      else some l
    | _ => some l

/-- The comprehension of line 168 over the value found under `ArticleId`.
`none` models an exception somewhere in the iteration (it is caught by the
bare `except` of lines 166–174).  Iterating a mapping yields its keys
(strings) and iterating a string yields its characters; subscripting those
raises unless the iteration is empty, which still yields `[]`. -/
def pmcTexts : XVal → Option (List String)
  | .arr items => items.foldr pmcStep (some [])
  | .obj fs => if fs.isEmpty then some [] else none
  | .str s => if s.isEmpty then some [] else none

/-- The chained subscripts
`text_dict["PubmedArticleSet"]["PubmedArticle"]["PubmedData"]["ArticleIdList"]["ArticleId"]`
(line 167). -/
def article_ids (d : XVal) : Except LookupErr XVal := do
  let a ← subscr d "PubmedArticleSet"
  let b ← subscr a "PubmedArticle"
  let c ← subscr b "PubmedData"
  let e ← subscr c "ArticleIdList"
  subscr e "ArticleId"

/-- Lines 166–174: extract `pmc_id`.  The whole lookup-and-filter is wrapped
in a bare `except: pmc_id = None`, so every structural anomaly — missing
path, non-list value, entry without the expected fields — yields `none`
rather than an error. -/
def extract_pmc_id (d : XVal) : Option String :=
  match article_ids d with
  | .error _ => none
  | .ok ids =>
    match pmcTexts ids with
    | none => none
    | some [] => none
    | some (p :: _) => some p

/-- `citations["ama"]["orig"]` from the parsed citation response
(lines 175–177, 186); `none` input models a failed citation request or
undecodable JSON.  Any failure raises out of `_parse_article`. -/
def citationText (response : Option XVal) : Except Unit String :=
  match response with
  | none => .error ()
  | some j =>
    match (do let a ← subscr j "ama"; subscr a "orig" : Except LookupErr XVal) with
    | .ok (.str s) => .ok s
    | _ => .error ()

/-- Lines 178–181: `ArticleTitle` is either a plain string or a structured
block whose `#text` is taken; a missing key or a non-mapping block raises. -/
def titleOf (ar : XVal) : Except Unit String :=
  match subscr ar "ArticleTitle" with
  | .error _ => .error ()
  | .ok (.str t) => .ok t
  | .ok v =>
    match subscr v "#text" with
    | .ok (.str t) => .ok t
    | _ => .error ()

/-- `_parse_article` (lines 143–188) with the citation response passed in as
data: shape dispatch, summary extraction, `pmc_id` extraction (never a
failure), citation text, title. -/
def _parse_article (citation : Option XVal) (uid : String) (text_dict : XVal) :
    Except Unit Article := do
  let ar ← getAr text_dict
  let abstract_text ← get_abstract_text ar
  let summary ← summaryOf abstract_text
  let pmc_id := extract_pmc_id text_dict
  let cit ← citationText citation
  let title ← titleOf ar
  pure ⟨uid, pmc_id, summary, cit, title⟩

/-- The transport oracle: the search endpoint's response to a submitted
term (an opaque session token and the identifier list, or a failure), each
identifier's detail-endpoint behaviour per attempt, and each identifier's
citation response (`none` = request or JSON failure). -/
structure Env where
  search : String → Except Unit (String × List String)
  fetch : String → Nat → FetchResult
  citation : String → Option XVal

/-- Observable outcome of `retrieve_article` for one identifier: the parsed
article or the escaping error, the number of requests issued to the detail
endpoint, the sleep log, and the final `sleep_time` field value. -/
structure RetOut where
  result : Except Err Article
  requests : Nat
  sleeps : List ℚ
  sleep_time : ℚ

/-- `retrieve_article` (lines 113–141): the retry loop around the detail
fetch, then XML decoding and `_parse_article` (which performs the citation
request); any parse-side exception is reported as `Err.parse`. -/
def retrieve_article (env : Env) (uid : String) (max_retry : Nat) (st : ℚ) : RetOut :=
  let lo := retryLoop (env.fetch uid) max_retry st
  match lo.result with
  | .error e => ⟨.error e, lo.requests, lo.sleeps, lo.sleep_time⟩
  | .ok doc =>
    match _parse_article (env.citation uid) uid doc with
    | .ok a => ⟨.ok a, lo.requests, lo.sleeps, lo.sleep_time⟩
    | .error _ => ⟨.error .parse, lo.requests, lo.sleeps, lo.sleep_time⟩

/-- The per-identifier loop of `lazy_load` (lines 78–93): each identifier is
processed in order with the wrapper's current `sleep_time`; an exception for
one identifier is swallowed by the bare `except: continue` and the loop
moves on.  Returns the yielded articles, the accumulated sleep log, and the
final `sleep_time`. -/
def lazyLoadAux (env : Env) (max_retry : Nat) :
    List String → ℚ → List Article × List ℚ × ℚ
  | [], st => ([], [], st)
  | uid :: rest, st =>
    let r := retrieve_article env uid max_retry st
    let (docs, sleeps, st2) := lazyLoadAux env max_retry rest r.sleep_time
    match r.result with
    | .ok a => (a :: docs, r.sleeps ++ sleeps, st2)
    | .error _ => (docs, r.sleeps ++ sleeps, st2)

/-- `lazy_load` (lines 61–93): one search request — whose failure, or a
response without the expected fields, aborts the whole call — then the
per-identifier loop over the first `top_k_results` identifiers. -/
def lazy_load (env : Env) (query : String) (top_k_results : Nat)
    (max_retry : Nat) (st : ℚ) : Except Unit (List Article × List ℚ × ℚ) :=
  match env.search query with
  | .error _ => .error ()
  | .ok (_webenv, idlist) => .ok (lazyLoadAux env max_retry (idlist.take top_k_results) st)

/-- The filter of `load` (line 100): keep articles whose `Summary`, after
`strip()`, is non-empty. -/
def filterEmptySummaries (l : List Article) : List Article :=
  l.filter (fun a => 0 < (pyStrip a.Summary).length)

/-- `load` (lines 95–100): `lazy_load` with empty-summary articles dropped. -/
def load (env : Env) (query : String) (top_k_results : Nat)
    (max_retry : Nat) (st : ℚ) : Except Unit (List Article × List ℚ × ℚ) :=
  (lazy_load env query top_k_results max_retry st).map
    (fun r => (filterEmptySummaries r.1, r.2.1, r.2.2))

/-- Lines 54–57 (and identically 81–84): the derived URL — the canonical
PubMed article page from `uid` when `pmc_id` is absent, the PMC article page
from `pmc_id` when present. -/
def derivedUrl (uid : String) (pmc_id : Option String) : String :=
  match pmc_id with
  | none => "https://pubmed.ncbi.nlm.nih.gov/" ++ uid ++ "/"
  | some p => "https://www.ncbi.nlm.nih.gov/pmc/articles/" ++ p ++ "/"

/-- `run` (lines 44–59) with its observable trace: collapse whitespace runs
in the query to `+`, truncate to `MAX_QUERY_LENGTH`, call `load`, and map
each surviving article to its `{URL, Summary, Citation}` document. -/
def runT (env : Env) (query : String) (top_k_results : Nat)
    (max_retry : Nat) (st : ℚ) :
    Except Unit (List ResultDoc × List ℚ × ℚ) :=
  (load env (submitted_term query) top_k_results max_retry st).map
    (fun r =>
      (r.1.map (fun a => ⟨derivedUrl a.uid a.pmc_id, a.Summary, a.Citation⟩),
       r.2.1, r.2.2))

/-- `run` (lines 44–59) as the caller sees it: the document list alone. -/
def run (env : Env) (query : String) (top_k_results : Nat)
    (max_retry : Nat) (st : ℚ) : Except Unit (List ResultDoc) :=
  (runT env query top_k_results max_retry st).map (fun r => r.1)

/-- The per-identifier outcome that `lazy_load` yields or skips, as a pure
function of the oracle (the outcome of the retry loop and parse does not
depend on the wrapper's `sleep_time`). -/
def processUid (env : Env) (max_retry : Nat) (uid : String) : Option Article :=
  match (retrieve_article env uid max_retry 0).result with
  | .ok a => some a
  | .error _ => none

/-- A structured abstract block as `xmltodict` presents it: an optional
`@NlmCategory` attribute, an optional `@Label` attribute, an optional
`#text` node — all strings when present. -/
structure AbsBlock where
  cat : Option String
  label : Option String
  text : Option String

/-- The `xmltodict` mapping for an `AbsBlock`. -/
def encodeBlock (b : AbsBlock) : XVal :=
  .obj ((b.cat.toList.map (fun c => ("@NlmCategory", XVal.str c)))
    ++ (b.label.toList.map (fun l => ("@Label", XVal.str l)))
    ++ (b.text.toList.map (fun t => ("#text", XVal.str t))))

/-- An optional label followed by a colon-space, or nothing. -/
def optPre : Option String → String
  | some s => s ++ ": "
  | none => ""

/-- The line a block with a text field contributes to the summary. -/
def renderBlock (b : AbsBlock) : String :=
  optPre b.cat ++ optPre b.label ++ b.text.getD ""

/-- An `ArticleId` entry as `xmltodict` presents it: an `@IdType` attribute
and a `#text` node. -/
structure IdEntry where
  idType : String
  text : String

/-- The `xmltodict` mapping for an `IdEntry`. -/
def encodeId (e : IdEntry) : XVal :=
  .obj [("@IdType", XVal.str e.idType), ("#text", XVal.str e.text)]

/-- A well-formed article document for uid 111: standard shape, plain-string
abstract, no `PubmedData` (hence no pmc id). -/
def doc111 : XVal :=
  .obj [("PubmedArticleSet", .obj [
    ("PubmedArticle", .obj [
      ("MedlineCitation", .obj [
        ("Article", .obj [
          ("Abstract", .obj [("AbstractText", .str "Summary 111")]),
          ("ArticleTitle", .str "Title 111")])])])])]

/-- A well-formed article document for uid 333, carrying a pmc identifier
`PMC333` as the second `ArticleId` entry. -/
def doc333 : XVal :=
  .obj [("PubmedArticleSet", .obj [
    ("PubmedArticle", .obj [
      ("MedlineCitation", .obj [
        ("Article", .obj [
          ("Abstract", .obj [("AbstractText", .str "Summary 333")]),
          ("ArticleTitle", .str "Title 333")])]),
      ("PubmedData", .obj [
        ("ArticleIdList", .obj [
          ("ArticleId", .arr [
            .obj [("@IdType", .str "pubmed"), ("#text", .str "333")],
            .obj [("@IdType", .str "pmc"), ("#text", .str "PMC333")]])])])])])]

/-- A malformed detail document: its `PubmedArticleSet` carries neither a
`PubmedArticle` nor a `PubmedBookArticle`, so both top-level shapes of
`_parse_article` fail. -/
def doc222bad : XVal := .obj [("PubmedArticleSet", .obj [("junk", .str "x")])]

/-- The citation response used by the concrete environments. -/
def citeDoc (uid : String) : XVal :=
  .obj [("ama", .obj [("orig", .str ("Cite " ++ uid))])]

/-- The environment of the batch-skip scenario: the search returns
identifiers 111, 222, 333; the detail documents for 111 and 333 are
well-formed, the one for 222 is `doc222bad`; citations always succeed. -/
def env3 : Env :=
  { search := fun _ => .ok ("WEBENV3", ["111", "222", "333"]),
    fetch := fun uid _ =>
      if uid = "111" then .ok doc111
      else if uid = "222" then .ok doc222bad
      else if uid = "333" then .ok doc333
      else .netErr,
    citation := fun uid => some (citeDoc uid) }

/-- An environment whose detail endpoint answers 429 on every attempt. -/
def env429 : Env :=
  { search := fun _ => .ok ("WEBENV", ["111"]),
    fetch := fun _ _ => .httpError 429,
    citation := fun _ => none }

/-- An environment where every identifier's detail fetch is rate-limited on
its first attempt and succeeds on its second. -/
def env9 : Env :=
  { search := fun _ => .ok ("WEBENV", ["111", "333"]),
    fetch := fun uid n =>
      if n = 0 then .httpError 429
      else if uid = "111" then .ok doc111
      else .ok doc333,
    citation := fun uid => some (citeDoc uid) }

/-- An environment whose detail endpoint answers 429 on attempts 1–3 and
succeeds on attempt 4. -/
def envC2 : Env :=
  { search := fun _ => .ok ("WEBENV", ["111"]),
    fetch := fun _ n => if n < 3 then .httpError 429 else .ok doc111,
    citation := fun uid => some (citeDoc uid) }

/-- An environment whose detail endpoint answers 404 on every attempt. -/
def envC8 : Env :=
  { search := fun _ => .ok ("WEBENV", ["111"]),
    fetch := fun _ _ => .httpError 404,
    citation := fun _ => none }

/-- An environment whose search request fails. -/
def envSearchFail : Env :=
  { search := fun _ => .error (),
    fetch := fun _ _ => .netErr,
    citation := fun _ => none }

/-! ### Step equations for the retry loop -/

theorem retryAux_ok (oracle : Nat → FetchResult) (rem att : Nat) (st : ℚ) (doc : XVal)
    (h : oracle att = .ok doc) :
    retryAux oracle rem att st = ⟨.ok doc, 1, [], st⟩ := by
  unfold retryAux
  rw [h]

theorem retryAux_net (oracle : Nat → FetchResult) (rem att : Nat) (st : ℚ)
    (h : oracle att = .netErr) :
    retryAux oracle rem att st = ⟨.error .net, 1, [], st⟩ := by
  unfold retryAux
  rw [h]

theorem retryAux_http_stop (oracle : Nat → FetchResult) (rem att : Nat) (st : ℚ)
    (code : Nat) (h : oracle att = .httpError code) (hc : code ≠ 429) :
    retryAux oracle rem att st = ⟨.error (.http code), 1, [], st⟩ := by
  unfold retryAux
  rw [h]
  simp [hc]

theorem retryAux_429_zero (oracle : Nat → FetchResult) (att : Nat) (st : ℚ)
    (h : oracle att = .httpError 429) :
    retryAux oracle 0 att st = ⟨.error (.http 429), 1, [], st⟩ := by
  unfold retryAux
  rw [h]
  rfl

theorem retryAux_429_succ (oracle : Nat → FetchResult) (r att : Nat) (st : ℚ)
    (h : oracle att = .httpError 429) :
    retryAux oracle (r + 1) att st =
      ⟨(retryAux oracle r (att + 1) (st * 2)).result,
       (retryAux oracle r (att + 1) (st * 2)).requests + 1,
       st :: (retryAux oracle r (att + 1) (st * 2)).sleeps,
       (retryAux oracle r (att + 1) (st * 2)).sleep_time⟩ := by
  conv => lhs; unfold retryAux
  rw [h]
  rfl

/-! ### Lemmas about the retry loop -/

theorem retryAux_result_indep (oracle : Nat → FetchResult) :
    ∀ (rem att : Nat) (st st' : ℚ),
      (retryAux oracle rem att st).result = (retryAux oracle rem att st').result := by
  intro rem
  induction rem with
  | zero =>
    intro att st st'
    cases hor : oracle att with
    | ok doc => rw [retryAux_ok _ _ _ _ _ hor, retryAux_ok _ _ _ _ _ hor]
    | netErr => rw [retryAux_net _ _ _ _ hor, retryAux_net _ _ _ _ hor]
    | httpError code =>
      by_cases hc : code = 429
      · subst hc
        rw [retryAux_429_zero _ _ _ hor, retryAux_429_zero _ _ _ hor]
      · rw [retryAux_http_stop _ _ _ _ _ hor hc, retryAux_http_stop _ _ _ _ _ hor hc]
  | succ r ih =>
    intro att st st'
    cases hor : oracle att with
    | ok doc => rw [retryAux_ok _ _ _ _ _ hor, retryAux_ok _ _ _ _ _ hor]
    | netErr => rw [retryAux_net _ _ _ _ hor, retryAux_net _ _ _ _ hor]
    | httpError code =>
      by_cases hc : code = 429
      · subst hc
        rw [retryAux_429_succ _ _ _ _ hor, retryAux_429_succ _ _ _ _ hor]
        exact ih (att + 1) (st * 2) (st' * 2)
      · rw [retryAux_http_stop _ _ _ _ _ hor hc, retryAux_http_stop _ _ _ _ _ hor hc]

theorem retryAux_all429 (oracle : Nat → FetchResult)
    (h : ∀ n, oracle n = .httpError 429) :
    ∀ (rem att : Nat) (st : ℚ),
      (retryAux oracle rem att st).result = .error (.http 429) ∧
      (retryAux oracle rem att st).requests = rem + 1 ∧
      (retryAux oracle rem att st).sleeps.length = rem := by
  intro rem
  induction rem with
  | zero =>
    intro att st
    rw [retryAux_429_zero _ _ _ (h att)]
    exact ⟨rfl, rfl, rfl⟩
  | succ r ih =>
    intro att st
    rw [retryAux_429_succ _ _ _ _ (h att)]
    obtain ⟨i1, i2, i3⟩ := ih (att + 1) (st * 2)
    exact ⟨i1, by simp [i2], by simp [i3]⟩

theorem retryAux_sleep_formula (oracle : Nat → FetchResult) :
    ∀ (rem att : Nat) (st : ℚ), ∃ k : Nat,
      (retryAux oracle rem att st).sleeps = (List.range k).map (fun i => st * 2 ^ i) ∧
      (retryAux oracle rem att st).sleep_time = st * 2 ^ k ∧
      (retryAux oracle rem att st).requests = k + 1 := by
  intro rem
  induction rem with
  | zero =>
    intro att st
    refine ⟨0, ?_⟩
    cases hor : oracle att with
    | ok doc => rw [retryAux_ok _ _ _ _ _ hor]; simp
    | netErr => rw [retryAux_net _ _ _ _ hor]; simp
    | httpError code =>
      by_cases hc : code = 429
      · subst hc; rw [retryAux_429_zero _ _ _ hor]; simp
      · rw [retryAux_http_stop _ _ _ _ _ hor hc]; simp
  | succ r ih =>
    intro att st
    cases hor : oracle att with
    | ok doc => exact ⟨0, by rw [retryAux_ok _ _ _ _ _ hor]; simp⟩
    | netErr => exact ⟨0, by rw [retryAux_net _ _ _ _ hor]; simp⟩
    | httpError code =>
      by_cases hc : code = 429
      · subst hc
        obtain ⟨k, hs, ht, hr⟩ := ih (att + 1) (st * 2)
        refine ⟨k + 1, ?_, ?_, ?_⟩ <;> rw [retryAux_429_succ _ _ _ _ hor]
        · show st :: (retryAux oracle r (att + 1) (st * 2)).sleeps = _
          rw [hs, List.range_succ_eq_map, List.map_cons, List.map_map]
          simp only [pow_zero, mul_one]
          congr 1
          apply List.map_congr_left
          intro i _
          simp only [Function.comp_apply, Nat.succ_eq_add_one]
          ring
        · show (retryAux oracle r (att + 1) (st * 2)).sleep_time = _
          rw [ht]; ring
        · show (retryAux oracle r (att + 1) (st * 2)).requests + 1 = _
          rw [hr]
      · exact ⟨0, by rw [retryAux_http_stop _ _ _ _ _ hor hc]; simp⟩

theorem retryAux_sleeps_head (oracle : Nat → FetchResult) (rem att : Nat) (st x : ℚ)
    (h : (retryAux oracle rem att st).sleeps.head? = some x) : x = st := by
  cases hor : oracle att with
  | ok doc => rw [retryAux_ok _ _ _ _ _ hor] at h; simp at h
  | netErr => rw [retryAux_net _ _ _ _ hor] at h; simp at h
  | httpError code =>
    by_cases hc : code = 429
    · subst hc
      cases rem with
      | zero => rw [retryAux_429_zero _ _ _ hor] at h; simp at h
      | succ r =>
        rw [retryAux_429_succ _ _ _ _ hor] at h
        simp at h
        exact h.symm
    · rw [retryAux_http_stop _ _ _ _ _ hor hc] at h; simp at h

theorem retryAux_mono (oracle : Nat → FetchResult) :
    ∀ (rem att : Nat) (st : ℚ), 0 < st →
      List.Chain' (· ≤ ·) (retryAux oracle rem att st).sleeps ∧
      (∀ x ∈ (retryAux oracle rem att st).sleeps,
        st ≤ x ∧ x ≤ (retryAux oracle rem att st).sleep_time) ∧
      st ≤ (retryAux oracle rem att st).sleep_time ∧
      0 < (retryAux oracle rem att st).sleep_time := by
  intro rem
  induction rem with
  | zero =>
    intro att st hst
    cases hor : oracle att with
    | ok doc => rw [retryAux_ok _ _ _ _ _ hor]; simp [hst]
    | netErr => rw [retryAux_net _ _ _ _ hor]; simp [hst]
    | httpError code =>
      by_cases hc : code = 429
      · subst hc; rw [retryAux_429_zero _ _ _ hor]; simp [hst]
      · rw [retryAux_http_stop _ _ _ _ _ hor hc]; simp [hst]
  | succ r ih =>
    intro att st hst
    cases hor : oracle att with
    | ok doc => rw [retryAux_ok _ _ _ _ _ hor]; simp [hst]
    | netErr => rw [retryAux_net _ _ _ _ hor]; simp [hst]
    | httpError code =>
      by_cases hc : code = 429
      · subst hc
        rw [retryAux_429_succ _ _ _ _ hor]
        have hst2 : (0 : ℚ) < st * 2 := by linarith
        have hle2 : st ≤ st * 2 := by linarith
        obtain ⟨ihc, ihb, ihf, ihp⟩ := ih (att + 1) (st * 2) hst2
        refine ⟨?_, ?_, ?_, ?_⟩
        · simp only
          rw [List.chain'_cons']
          refine ⟨?_, ihc⟩
          intro y hy
          have := (ihb y (List.mem_of_mem_head? hy)).1
          linarith
        · intro x hx
          simp only [List.mem_cons] at hx
          rcases hx with hx | hx
          · subst hx
            exact ⟨le_refl _, by simp only; linarith⟩
          · have := ihb x hx
            exact ⟨by linarith [this.1], this.2⟩
        · simp only; linarith
        · simp only; exact ihp
      · rw [retryAux_http_stop _ _ _ _ _ hor hc]; simp [hst]

/-- `retrieve_article` splits into the retry loop's result followed by the
parse stage; the parse stage issues no detail request and never sleeps. -/
theorem retrieve_article_eq (env : Env) (uid : String) (mr : Nat) (st : ℚ) :
    retrieve_article env uid mr st =
      ⟨match (retryLoop (env.fetch uid) mr st).result with
       | .error e => .error e
       | .ok doc =>
         match _parse_article (env.citation uid) uid doc with
         | .ok a => .ok a
         | .error _ => .error .parse,
       (retryLoop (env.fetch uid) mr st).requests,
       (retryLoop (env.fetch uid) mr st).sleeps,
       (retryLoop (env.fetch uid) mr st).sleep_time⟩ := by
  unfold retrieve_article
  cases h : (retryLoop (env.fetch uid) mr st).result with
  | error e => simp [h]
  | ok doc => cases hp : _parse_article (env.citation uid) uid doc <;> simp [h, hp]

theorem retrieve_article_result_indep (env : Env) (uid : String) (mr : Nat) (st st' : ℚ) :
    (retrieve_article env uid mr st).result = (retrieve_article env uid mr st').result := by
  rw [retrieve_article_eq, retrieve_article_eq]
  unfold retryLoop
  rw [retryAux_result_indep (env.fetch uid) mr 0 st st']

/-- Per-call monotonicity lifted to `retrieve_article`. -/
theorem retrieve_article_mono (env : Env) (uid : String) (mr : Nat) (st : ℚ) (hst : 0 < st) :
    List.Chain' (· ≤ ·) (retrieve_article env uid mr st).sleeps ∧
    (∀ x ∈ (retrieve_article env uid mr st).sleeps,
      st ≤ x ∧ x ≤ (retrieve_article env uid mr st).sleep_time) ∧
    st ≤ (retrieve_article env uid mr st).sleep_time ∧
    0 < (retrieve_article env uid mr st).sleep_time := by
  rw [retrieve_article_eq]
  exact retryAux_mono (env.fetch uid) mr 0 st hst

/-- The articles a `lazy_load` batch yields do not depend on the wrapper's
current `sleep_time`, and are exactly the identifiers whose processing
succeeds, in order: a failing identifier is skipped, the rest go on. -/
theorem lazyLoadAux_docs (env : Env) (mr : Nat) :
    ∀ (ids : List String) (st : ℚ),
      (lazyLoadAux env mr ids st).1 = ids.filterMap (processUid env mr) := by
  intro ids
  induction ids with
  | nil => intro st; rfl
  | cons uid rest ih =>
    intro st
    show (let r := retrieve_article env uid mr st;
      let p := lazyLoadAux env mr rest r.sleep_time;
      match r.result with
      | .ok a => (a :: p.1, r.sleeps ++ p.2.1, p.2.2)
      | .error _ => (p.1, r.sleeps ++ p.2.1, p.2.2)).1 = _
    have hres : (retrieve_article env uid mr st).result
        = (retrieve_article env uid mr 0).result :=
      retrieve_article_result_indep env uid mr st 0
    rw [List.filterMap_cons]
    unfold processUid
    cases h : (retrieve_article env uid mr st).result with
    | ok a =>
      rw [← hres, h]
      simp only [h]
      exact congrArg (a :: ·) (ih _)
    | error e =>
      rw [← hres, h]
      simp only [h]
      exact ih _

/-- Unfolding `lazy_load`'s loop one identifier: the sleep log of the batch
is the first call's sleeps followed by the rest of the batch run with the
first call's final `sleep_time`. -/
theorem lazyLoadAux_cons_log (env : Env) (mr : Nat) (uid : String) (rest : List String) (st : ℚ) :
    (lazyLoadAux env mr (uid :: rest) st).2.1
      = (retrieve_article env uid mr st).sleeps
        ++ (lazyLoadAux env mr rest (retrieve_article env uid mr st).sleep_time).2.1 := by
  show (let r := retrieve_article env uid mr st;
    let p := lazyLoadAux env mr rest r.sleep_time;
    match r.result with
    | .ok a => (a :: p.1, r.sleeps ++ p.2.1, p.2.2)
    | .error _ => (p.1, r.sleeps ++ p.2.1, p.2.2)).2.1 = _
  cases h : (retrieve_article env uid mr st).result <;> simp [h]

/-- Unfolding `lazy_load`'s loop one identifier: the `sleep_time` the rest
of the batch starts from is the first call's final `sleep_time`. -/
theorem lazyLoadAux_cons_final (env : Env) (mr : Nat) (uid : String) (rest : List String) (st : ℚ) :
    (lazyLoadAux env mr (uid :: rest) st).2.2
      = (lazyLoadAux env mr rest (retrieve_article env uid mr st).sleep_time).2.2 := by
  show (let r := retrieve_article env uid mr st;
    let p := lazyLoadAux env mr rest r.sleep_time;
    match r.result with
    | .ok a => (a :: p.1, r.sleeps ++ p.2.1, p.2.2)
    | .error _ => (p.1, r.sleeps ++ p.2.1, p.2.2)).2.2 = _
  cases h : (retrieve_article env uid mr st).result <;> simp [h]

/-- Whole-batch monotonicity: across one `lazy_load` run the sleep log is
monotonically non-decreasing, every sleep lies between the starting and the
final `sleep_time`, and the field never decreases. -/
theorem lazyLoadAux_mono (env : Env) (mr : Nat) :
    ∀ (ids : List String) (st : ℚ), 0 < st →
      List.Chain' (· ≤ ·) (lazyLoadAux env mr ids st).2.1 ∧
      (∀ x ∈ (lazyLoadAux env mr ids st).2.1,
        st ≤ x ∧ x ≤ (lazyLoadAux env mr ids st).2.2) ∧
      st ≤ (lazyLoadAux env mr ids st).2.2 ∧
      0 < (lazyLoadAux env mr ids st).2.2 := by
  intro ids
  induction ids with
  | nil =>
    intro st hst
    simp [lazyLoadAux, hst]
  | cons uid rest ih =>
    intro st hst
    obtain ⟨c1, b1, f1, p1⟩ := retrieve_article_mono env uid mr st hst
    obtain ⟨c2, b2, f2, p2⟩ := ih (retrieve_article env uid mr st).sleep_time p1
    rw [lazyLoadAux_cons_log, lazyLoadAux_cons_final]
    refine ⟨?_, ?_, ?_, p2⟩
    · rw [List.chain'_append]
      refine ⟨c1, c2, ?_⟩
      intro x hx y hy
      have hxm : x ∈ (retrieve_article env uid mr st).sleeps := by
        rcases List.mem_getLast?_eq_getLast hx with ⟨hne, hxe⟩
        rw [hxe]
        exact List.getLast_mem hne
      have hym : y ∈ (lazyLoadAux env mr rest (retrieve_article env uid mr st).sleep_time).2.1 :=
        List.mem_of_mem_head? hy
      calc x ≤ (retrieve_article env uid mr st).sleep_time := (b1 x hxm).2
        _ ≤ y := (b2 y hym).1
    · intro x hx
      rcases List.mem_append.1 hx with hx | hx
      · obtain ⟨hx1, hx2⟩ := b1 x hx
        exact ⟨hx1, le_trans hx2 f2⟩
      · obtain ⟨hx1, hx2⟩ := b2 x hx
        exact ⟨le_trans f1 hx1, hx2⟩
    · exact le_trans f1 f2

/-- A failing search request aborts the whole `run`. -/
theorem run_search_error (env : Env) (q : String) (k mr : Nat) (st : ℚ)
    (h : env.search (submitted_term q) = .error ()) :
    run env q k mr st = .error () := by
  unfold run runT load lazy_load
  rw [h]
  rfl

/-- When the search succeeds, `run` succeeds, and its output is the batch
of per-identifier outcomes in search order — failing identifiers dropped,
empty summaries filtered, each survivor mapped to its result document. -/
theorem run_search_ok (env : Env) (q : String) (k mr : Nat) (st : ℚ)
    (w : String) (ids : List String)
    (h : env.search (submitted_term q) = .ok (w, ids)) :
    run env q k mr st = .ok
      ((filterEmptySummaries ((ids.take k).filterMap (processUid env mr))).map
        (fun a => ⟨derivedUrl a.uid a.pmc_id, a.Summary, a.Citation⟩)) := by
  unfold run runT load lazy_load
  rw [h]
  have hd := lazyLoadAux_docs env mr (List.take k ids) st
  simp [Except.map, hd]

/-- A positivity fact used to instantiate hypotheses at the default
configured base. -/
theorem rat_thirty_pos : (0 : ℚ) < 30 := by norm_num

/-- Equation lemma: `summaryOf` on the single-structured-block shape. -/
theorem summaryOf_obj (fs : List (String × XVal)) :
    summaryOf (.obj fs) =
      match dictGetD fs "#text" (.str "") with
      | .str t => .ok t
      | _ => .error () := rfl

/-- Equation lemma: `extract_pmc_id` once the identifier-list lookup has
succeeded. -/
theorem extract_pmc_id_ok (d ids : XVal) (h : article_ids d = .ok ids) :
    extract_pmc_id d =
      match pmcTexts ids with
      | none => none
      | some [] => none
      | some (p :: _) => some p := by
  unfold extract_pmc_id
  rw [h]

/-- The head of a filtered list is the first element satisfying the
predicate. -/
theorem head?_filter_eq_find? {α : Type} (p : α → Bool) (l : List α) :
    (l.filter p).head? = l.find? p := by
  induction l with
  | nil => rfl
  | cons a t ih =>
    by_cases h : p a <;> simp [List.filter_cons, List.find?_cons, h, ih]

/-- One comprehension step on a well-formed `ArticleId` entry: a matching
entry conses its text, a non-matching entry is passed over. -/
theorem pmcStep_encode (e : IdEntry) (l : List String) :
    pmcStep (encodeId e) (some l)
      = if e.idType = "pmc" then some (e.text :: l) else some l := rfl

/-- The comprehension on a list of well-formed `ArticleId` entries collects
the texts of the matching entries, in order. -/
theorem pmcTexts_encode (es : List IdEntry) :
    pmcTexts (.arr (es.map encodeId)) =
      some ((es.filter (fun e => e.idType = "pmc")).map IdEntry.text) := by
  induction es with
  | nil => rfl
  | cons e rest ih =>
    show pmcStep (encodeId e) (pmcTexts (.arr (rest.map encodeId))) = _
    rw [ih, pmcStep_encode]
    by_cases h : e.idType = "pmc" <;> simp [h, List.filter_cons]

/-- One block step on a well-formed structured block: the optional category
and label prefixes (each with a colon-space) are prepended to the text when
a text field is present; without a text field nothing is contributed. -/
theorem blockStep_encode (b : AbsBlock) :
    blockStep (encodeBlock b)
      = .ok (b.text.map (fun t => optPre b.cat ++ optPre b.label ++ t)) := by
  rcases b with ⟨c, l, t⟩
  rcases c with _ | c <;> rcases l with _ | l <;> rcases t with _ | t <;>
    simp [blockStep, encodeBlock, pyIn, subscr, optPre, Option.toList,
      bind, Except.bind, String.append_assoc]

/-- The fold of `summaryOf` over a sequence of well-formed blocks collects
exactly the lines of the blocks that carry a text field. -/
theorem blockFold_encode (bs : List AbsBlock) (acc : List String) :
    (bs.map encodeBlock).foldlM blockFold acc
      = Except.ok (acc ++ bs.filterMap
          (fun b => b.text.map (fun t => optPre b.cat ++ optPre b.label ++ t))) := by
  induction bs generalizing acc with
  | nil => simp [pure, Except.pure]
  | cons b rest ih =>
    rw [List.map_cons, List.foldlM_cons]
    rw [show blockFold acc (encodeBlock b)
        = (blockStep (encodeBlock b) >>= fun x =>
            match x with
            | some s => pure (acc ++ [s])
            | none => pure acc) from rfl]
    rw [blockStep_encode]
    cases ht : b.text with
    | none => simp [ht, ih, List.filterMap_cons, bind, Except.bind, pure, Except.pure]
    | some t => simp [ht, ih, List.filterMap_cons, bind, Except.bind, pure, Except.pure]

/-- `summaryOf` on a sequence of well-formed blocks: the newline-join of the
prefixed texts of the blocks that carry a text field. -/
theorem summaryOf_encode (bs : List AbsBlock) :
    summaryOf (.arr (bs.map encodeBlock))
      = .ok (String.intercalate "\n" (bs.filterMap
          (fun b => b.text.map (fun t => optPre b.cat ++ optPre b.label ++ t)))) := by
  show ((bs.map encodeBlock).foldlM blockFold ([] : List String) >>= fun summaries =>
      pure (String.intercalate "\n" summaries)) = _
  rw [blockFold_encode]
  simp [Except.bind]

/-- Step equation: a whitespace character inside a run is dropped. -/
theorem collapseAux_cons_space_true (x : Char) (rest : List Char) (h : pyIsSpace x) :
    collapseAux true (x :: rest) = collapseAux true rest := by
  conv => lhs; unfold collapseAux
  rw [if_pos h, if_pos rfl]

/-- Step equation: a whitespace character opening a run emits one `+`. -/
theorem collapseAux_cons_space_false (x : Char) (rest : List Char) (h : pyIsSpace x) :
    collapseAux false (x :: rest) = '+' :: collapseAux true rest := by
  conv => lhs; unfold collapseAux
  rw [if_pos h, if_neg (by simp)]

/-- Step equation: a non-whitespace character is copied and ends any run. -/
theorem collapseAux_cons_nospace (x : Char) (rest : List Char) (inRun : Bool)
    (h : ¬ pyIsSpace x) :
    collapseAux inRun (x :: rest) = x :: collapseAux false rest := by
  conv => lhs; unfold collapseAux
  rw [if_neg h]

/-- Inside a whitespace run the collapser emits nothing further. -/
theorem collapseAux_true_spaces (ws b : List Char) (h : ∀ c ∈ ws, pyIsSpace c) :
    collapseAux true (ws ++ b) = collapseAux true b := by
  induction ws with
  | nil => rfl
  | cons w rest ih =>
    rw [List.cons_append, collapseAux_cons_space_true w _ (h w (List.mem_cons_self w rest))]
    exact ih (fun c hc => h c (List.mem_cons_of_mem w hc))

/-- Non-whitespace characters pass through the collapser unchanged. -/
theorem collapseAux_false_copy (a b : List Char) (h : ∀ c ∈ a, ¬ pyIsSpace c) :
    collapseAux false (a ++ b) = a ++ collapseAux false b := by
  induction a with
  | nil => rfl
  | cons x rest ih =>
    rw [List.cons_append, collapseAux_cons_nospace x _ false (h x (List.mem_cons_self x rest)),
      ih (fun c hc => h c (List.mem_cons_of_mem x hc)), List.cons_append]

/-- When the remaining input does not begin with whitespace, the in-run flag
makes no difference. -/
theorem collapseAux_true_eq_false (b : List Char)
    (h : ∀ c, b.head? = some c → ¬ pyIsSpace c) :
    collapseAux true b = collapseAux false b := by
  cases b with
  | nil => rfl
  | cons x rest =>
    rw [collapseAux_cons_nospace x rest true (h x rfl),
      collapseAux_cons_nospace x rest false (h x rfl)]

/-- The collapser never emits a whitespace character. -/
theorem collapseAux_no_space :
    ∀ (l : List Char) (inRun : Bool) (c : Char),
      c ∈ collapseAux inRun l → pyIsSpace c = false := by
  intro l
  induction l with
  | nil => intro inRun c hc; cases hc
  | cons x rest ih =>
    intro inRun c hc
    by_cases hx : pyIsSpace x
    · cases inRun with
      | true =>
        rw [collapseAux_cons_space_true x rest hx] at hc
        exact ih true c hc
      | false =>
        rw [collapseAux_cons_space_false x rest hx] at hc
        rcases List.mem_cons.1 hc with hc | hc
        · subst hc; decide
        · exact ih true c hc
    · rw [collapseAux_cons_nospace x rest inRun hx] at hc
      rcases List.mem_cons.1 hc with hc | hc
      · subst hc; simpa using hx
      · exact ih false c hc

/-- The contributed lines are those of the blocks that have a text field. -/
theorem filterMap_text_eq (bs : List AbsBlock) :
    bs.filterMap (fun b => b.text.map (fun t => optPre b.cat ++ optPre b.label ++ t))
      = (bs.filter (fun b => b.text.isSome)).map renderBlock := by
  induction bs with
  | nil => rfl
  | cons b rest ih =>
    cases ht : b.text with
    | none => simp [List.filterMap_cons, List.filter_cons, ht, ih]
    | some t => simp [List.filterMap_cons, List.filter_cons, ht, ih, renderBlock]

/-! ### Claims -/

/-- Claim C1, as stated, is false on the code: with `max_retry = 5` and a
detail endpoint answering HTTP 429 on every attempt, `retrieve_article`
issues 6 fetch attempts (1 initial + 5 retries) before re-raising the
rate-limit error — not 5. -/
theorem claim_C1_counterexample :
    (retrieve_article env429 "111" 5 30).result = .error (.http 429) ∧
    (retrieve_article env429 "111" 5 30).requests = 6 ∧
    (retrieve_article env429 "111" 5 30).requests ≠ 5 :=
  ⟨rfl, rfl, by decide⟩

/-- Claim C1 (amended): if every article-detail fetch attempt for an
identifier fails with a rate-limit (HTTP 429) signal, then after 5 retries —
6 fetch attempts in total — `retrieve_article` raises the rate-limit error
to its caller; the error is not swallowed. -/
theorem claim_C1_theorem (env : Env) (uid : String) (st : ℚ)
    (h : ∀ n, env.fetch uid n = .httpError 429) :
    (retrieve_article env uid 5 st).result = .error (.http 429) ∧
    (retrieve_article env uid 5 st).requests = 6 ∧
    (retrieve_article env uid 5 st).sleeps.length = 5 := by
  obtain ⟨h1, h2, h3⟩ := retryAux_all429 (env.fetch uid) h 5 0 st
  rw [retrieve_article_eq]
  unfold retryLoop
  refine ⟨?_, h2, h3⟩
  rw [h1]

/-- Witness for C1's amended theorem at a concrete all-429 environment. -/
theorem claim_C1_witness :
    (retrieve_article env429 "222" 5 30).result = .error (.http 429) ∧
    (retrieve_article env429 "222" 5 30).requests = 6 ∧
    (retrieve_article env429 "222" 5 30).sleeps.length = 5 :=
  claim_C1_theorem env429 "222" 30 (fun _ => rfl)

/-- Claim C2: on a fresh wrapper (base `sleep_time = 30`, `max_retry = 5`),
with 429 on attempts 1–3 and success on attempt 4, `retrieve_article`
issues exactly 4 requests to the detail endpoint and sleeps once after each
failed attempt, with delays 30, 60, 120 — doubling from the configured
base. -/
theorem claim_C2_theorem (env : Env) (uid : String) (doc : XVal)
    (h0 : env.fetch uid 0 = .httpError 429) (h1 : env.fetch uid 1 = .httpError 429)
    (h2 : env.fetch uid 2 = .httpError 429) (h3 : env.fetch uid 3 = .ok doc) :
    (retrieve_article env uid 5 30).requests = 4 ∧
    (retrieve_article env uid 5 30).sleeps = [30, 60, 120] := by
  have hloop : retryAux (env.fetch uid) 5 0 30 = ⟨.ok doc, 4, [30, 60, 120], 240⟩ := by
    rw [retryAux_429_succ _ _ _ _ h0, retryAux_429_succ _ _ _ _ h1,
        retryAux_429_succ _ _ _ _ h2, retryAux_ok _ _ _ _ _ h3]
    simp only [LoopOut.mk.injEq]
    norm_num
  rw [retrieve_article_eq]
  unfold retryLoop
  rw [hloop]
  exact ⟨rfl, rfl⟩

/-- Witness for C2 at a concrete environment that rate-limits attempts 1–3
and succeeds on attempt 4. -/
theorem claim_C2_witness :
    (retrieve_article envC2 "111" 5 30).requests = 4 ∧
    (retrieve_article envC2 "111" 5 30).sleeps = [30, 60, 120] :=
  claim_C2_theorem envC2 "111" doc111 rfl rfl rfl rfl

/-- Claim C8: during an article-detail fetch, any transport error other
than HTTP 429 — another HTTP status, or a non-HTTP transport error — is
raised immediately by `retrieve_article`: one request, no retry, no sleep,
`sleep_time` untouched. -/
theorem claim_C8_theorem (env : Env) (uid : String) (mr : Nat) (st : ℚ) :
    (∀ code : Nat, code ≠ 429 → env.fetch uid 0 = .httpError code →
      retrieve_article env uid mr st = ⟨.error (.http code), 1, [], st⟩) ∧
    (env.fetch uid 0 = .netErr →
      retrieve_article env uid mr st = ⟨.error .net, 1, [], st⟩) := by
  constructor
  · intro code hc h
    rw [retrieve_article_eq]
    unfold retryLoop
    rw [retryAux_http_stop _ _ _ _ _ h hc]
  · intro h
    rw [retrieve_article_eq]
    unfold retryLoop
    rw [retryAux_net _ _ _ _ h]

/-- Witness for C8: a 404 on the first attempt, and a non-HTTP transport
error, both raised immediately. -/
theorem claim_C8_witness :
    retrieve_article envC8 "111" 5 30 = ⟨.error (.http 404), 1, [], 30⟩ ∧
    retrieve_article env3 "999" 5 30 = ⟨.error .net, 1, [], 30⟩ :=
  ⟨(claim_C8_theorem envC8 "111" 5 30).1 404 (by decide) rfl,
   (claim_C8_theorem env3 "999" 5 30).2 rfl⟩

/-- Claim C9: the backoff base is wrapper state, not local to one fetch.
Within one call the sleeps are `st, 2st, 4st, …` and the field ends at
`st * 2 ^ (number of sleeps)` (doubled in place per retry, never reset); any
call's first sleep equals the current field value; the loop of `lazy_load`
hands each identifier the previous identifier's final field value; hence
over a whole batch the sleep log is monotonically non-decreasing and the
field never decreases — concretely, with two identifiers each rate-limited
once, the second identifier's first backoff sleep is the already-doubled 60,
not the configured base 30. -/
theorem claim_C9_theorem :
    (∀ (env : Env) (uid : String) (mr : Nat) (st : ℚ), ∃ k : Nat,
      (retrieve_article env uid mr st).sleeps = (List.range k).map (fun i => st * 2 ^ i) ∧
      (retrieve_article env uid mr st).sleep_time = st * 2 ^ k) ∧
    (∀ (env : Env) (uid : String) (mr : Nat) (st x : ℚ),
      (retrieve_article env uid mr st).sleeps.head? = some x → x = st) ∧
    (∀ (env : Env) (mr : Nat) (uid : String) (rest : List String) (st : ℚ),
      (lazyLoadAux env mr (uid :: rest) st).2.2
        = (lazyLoadAux env mr rest (retrieve_article env uid mr st).sleep_time).2.2) ∧
    (∀ (env : Env) (mr : Nat) (ids : List String) (st : ℚ), 0 < st →
      List.Chain' (· ≤ ·) (lazyLoadAux env mr ids st).2.1 ∧
      st ≤ (lazyLoadAux env mr ids st).2.2) ∧
    ((lazyLoadAux env9 5 ["111", "333"] 30).2.1 = [30, 60] ∧
     (lazyLoadAux env9 5 ["111", "333"] 30).2.2 = 120) := by
  refine ⟨?_, ?_, ?_, ?_, ?_⟩
  · intro env uid mr st
    rw [retrieve_article_eq]
    unfold retryLoop
    obtain ⟨k, hs, ht, _⟩ := retryAux_sleep_formula (env.fetch uid) mr 0 st
    exact ⟨k, hs, ht⟩
  · intro env uid mr st x hx
    rw [retrieve_article_eq] at hx
    unfold retryLoop at hx
    exact retryAux_sleeps_head _ _ _ _ _ hx
  · intro env mr uid rest st
    exact lazyLoadAux_cons_final env mr uid rest st
  · intro env mr ids st hst
    obtain ⟨hc, _, hf, _⟩ := lazyLoadAux_mono env mr ids st hst
    exact ⟨hc, hf⟩
  · have h111 : retryAux (env9.fetch "111") 5 0 30 = ⟨.ok doc111, 2, [30], 60⟩ := by
      rw [retryAux_429_succ (env9.fetch "111") 4 0 30 rfl,
          retryAux_ok (env9.fetch "111") 4 1 (30 * 2) doc111 rfl]
      simp only [LoopOut.mk.injEq]
      norm_num
    have r111s : (retrieve_article env9 "111" 5 30).sleeps = [30] := by
      rw [retrieve_article_eq]; unfold retryLoop; rw [h111]
    have r111f : (retrieve_article env9 "111" 5 30).sleep_time = 60 := by
      rw [retrieve_article_eq]; unfold retryLoop; rw [h111]
    have h333 : retryAux (env9.fetch "333") 5 0 60 = ⟨.ok doc333, 2, [60], 120⟩ := by
      rw [retryAux_429_succ (env9.fetch "333") 4 0 60 rfl,
          retryAux_ok (env9.fetch "333") 4 1 (60 * 2) doc333 rfl]
      simp only [LoopOut.mk.injEq]
      norm_num
    have r333s : (retrieve_article env9 "333" 5 60).sleeps = [60] := by
      rw [retrieve_article_eq]; unfold retryLoop; rw [h333]
    have r333f : (retrieve_article env9 "333" 5 60).sleep_time = 120 := by
      rw [retrieve_article_eq]; unfold retryLoop; rw [h333]
    rw [lazyLoadAux_cons_log, lazyLoadAux_cons_final, r111s, r111f,
        lazyLoadAux_cons_log, lazyLoadAux_cons_final, r333s, r333f]
    exact ⟨rfl, rfl⟩

/-- Witness for C9 at the two-identifier environment with base 30. -/
theorem claim_C9_witness :
    List.Chain' (· ≤ ·) (lazyLoadAux env9 5 ["111", "333"] 30).2.1 ∧
    (30 : ℚ) ≤ (lazyLoadAux env9 5 ["111", "333"] 30).2.2 :=
  claim_C9_theorem.2.2.2.1 env9 5 ["111", "333"] 30 rat_thirty_pos

/-- Claim C3: a failure while processing any single identifier skips only
that identifier and the batch continues in order — when the search succeeds,
`run` returns the per-identifier outcomes of exactly the non-failing
identifiers, in search order; only a failing search call aborts the whole
run.  Concretely, for identifiers 111, 222, 333 with `topK = 3` where 222's
detail document lacks both expected top-level shapes, the output holds the
result documents of 111 and 333 only, in that order. -/
theorem claim_C3_theorem :
    (∀ (env : Env) (q : String) (k mr : Nat) (st : ℚ),
      env.search (submitted_term q) = .error () → run env q k mr st = .error ()) ∧
    (∀ (env : Env) (q : String) (k mr : Nat) (st : ℚ) (w : String) (ids : List String),
      env.search (submitted_term q) = .ok (w, ids) →
      run env q k mr st = .ok
        ((filterEmptySummaries ((ids.take k).filterMap (processUid env mr))).map
          (fun a => ⟨derivedUrl a.uid a.pmc_id, a.Summary, a.Citation⟩))) ∧
    (∀ (env : Env) (mr : Nat) (ids : List String) (st : ℚ),
      (lazyLoadAux env mr ids st).1 = ids.filterMap (processUid env mr)) ∧
    (run env3 "fever AND influenza" 3 5 30 =
      .ok [⟨"https://pubmed.ncbi.nlm.nih.gov/111/", "Summary 111", "Cite 111"⟩,
           ⟨"https://www.ncbi.nlm.nih.gov/pmc/articles/PMC333/", "Summary 333", "Cite 333"⟩]) := by
  refine ⟨run_search_error, run_search_ok, lazyLoadAux_docs, ?_⟩
  rfl

/-- Witness for C3 at a concrete failing search and at the concrete
three-identifier environment. -/
theorem claim_C3_witness :
    run envSearchFail "influenza" 3 5 30 = .error () ∧
    run env3 "fever AND influenza" 3 5 30 = .ok
      ((filterEmptySummaries ((["111", "222", "333"].take 3).filterMap (processUid env3 5))).map
        (fun a => ⟨derivedUrl a.uid a.pmc_id, a.Summary, a.Citation⟩)) :=
  ⟨claim_C3_theorem.1 envSearchFail "influenza" 3 5 30 rfl,
   claim_C3_theorem.2.1 env3 "fever AND influenza" 3 5 30 "WEBENV3" ["111", "222", "333"] rfl⟩

/-- Claim C4: every result document `run` emits has a summary that is
non-empty after trimming whitespace, and the empty-summary filter is
idempotent. -/
theorem claim_C4_theorem :
    (∀ (env : Env) (q : String) (k mr : Nat) (st : ℚ) (docs : List ResultDoc),
      run env q k mr st = .ok docs → ∀ d ∈ docs, pyStrip d.Summary ≠ "") ∧
    (∀ l : List Article,
      filterEmptySummaries (filterEmptySummaries l) = filterEmptySummaries l) := by
  constructor
  · intro env q k mr st docs hrun d hd
    cases hsearch : env.search (submitted_term q) with
    | error e =>
      cases e
      rw [run_search_error env q k mr st hsearch] at hrun
      cases hrun
    | ok p =>
      obtain ⟨w, ids⟩ := p
      rw [run_search_ok env q k mr st w ids hsearch] at hrun
      cases hrun
      rcases List.mem_map.1 hd with ⟨a, ha, rfl⟩
      have hmem := List.mem_filter.1 ha
      have hlen : 0 < (pyStrip a.Summary).length := by
        have := hmem.2
        simpa using this
      intro hemp
      rw [show (⟨derivedUrl a.uid a.pmc_id, a.Summary, a.Citation⟩ : ResultDoc).Summary
          = a.Summary from rfl] at hemp
      rw [hemp] at hlen
      simp at hlen
  · intro l
    induction l with
    | nil => rfl
    | cons a t ih =>
      unfold filterEmptySummaries at ih ⊢
      by_cases h : 0 < (pyStrip a.Summary).length
      · simp [List.filter_cons, h, ih]
      · simp [List.filter_cons, h, ih]

/-- Witness for C4 at the concrete three-identifier run. -/
theorem claim_C4_witness :
    pyStrip (ResultDoc.mk "https://pubmed.ncbi.nlm.nih.gov/111/" "Summary 111" "Cite 111").Summary
      ≠ "" :=
  claim_C4_theorem.1 env3 "fever AND influenza" 3 5 30
    [⟨"https://pubmed.ncbi.nlm.nih.gov/111/", "Summary 111", "Cite 111"⟩,
     ⟨"https://www.ncbi.nlm.nih.gov/pmc/articles/PMC333/", "Summary 333", "Cite 333"⟩]
    rfl _ (List.mem_cons_self _ _)

/-- Claim C5: `pmc_id` is the first entry of the nested identifier list
whose type tag is `"pmc"`; a missing path, a structurally broken list, or no
matching entry yields an absent `pmc_id`, never a failure (the extraction is
total).  The derived URL is the canonical PubMed page built from `uid` when
`pmc_id` is absent and the PMC page built from `pmc_id` when present, and
every document `run` emits carries exactly that URL for its article. -/
theorem claim_C5_theorem :
    (∀ (d : XVal) (e : LookupErr), article_ids d = .error e → extract_pmc_id d = none) ∧
    (∀ (d ids : XVal), article_ids d = .ok ids → pmcTexts ids = none →
      extract_pmc_id d = none) ∧
    (∀ (d : XVal) (es : List IdEntry), article_ids d = .ok (.arr (es.map encodeId)) →
      extract_pmc_id d = (es.find? (fun e => e.idType = "pmc")).map IdEntry.text) ∧
    (∀ uid : String,
      derivedUrl uid none = "https://pubmed.ncbi.nlm.nih.gov/" ++ uid ++ "/") ∧
    (∀ uid p : String,
      derivedUrl uid (some p) = "https://www.ncbi.nlm.nih.gov/pmc/articles/" ++ p ++ "/") ∧
    (∀ (env : Env) (q : String) (k mr : Nat) (st : ℚ) (r : List ResultDoc × List ℚ × ℚ),
      runT env q k mr st = .ok r → ∀ d ∈ r.1, ∃ a : Article,
        d.URL = derivedUrl a.uid a.pmc_id ∧ d.Summary = a.Summary ∧ d.Citation = a.Citation) := by
  refine ⟨?_, ?_, ?_, fun uid => rfl, fun uid p => rfl, ?_⟩
  · intro d e h
    unfold extract_pmc_id
    rw [h]
  · intro d ids h hnone
    rw [extract_pmc_id_ok d ids h, hnone]
  · intro d es h
    rw [extract_pmc_id_ok d _ h, pmcTexts_encode, ← head?_filter_eq_find?]
    cases hfl : es.filter (fun e => e.idType = "pmc") with
    | nil => rfl
    | cons a t => rfl
  · intro env q k mr st r hrt d hd
    cases hsearch : env.search (submitted_term q) with
    | error e =>
      cases e
      unfold runT load lazy_load at hrt
      rw [hsearch] at hrt
      cases hrt
    | ok p =>
      obtain ⟨w, ids⟩ := p
      unfold runT load lazy_load at hrt
      rw [hsearch] at hrt
      cases hrt
      simp only [Except.map] at hd
      rcases List.mem_map.1 hd with ⟨a, _, rfl⟩
      exact ⟨a, rfl, rfl, rfl⟩

/-- Witness for C5: the identifier list of `doc333` has a pubmed entry and
then a pmc entry, and the first match `PMC333` is extracted. -/
theorem claim_C5_witness :
    extract_pmc_id doc333
      = (([⟨"pubmed", "333"⟩, ⟨"pmc", "PMC333"⟩] : List IdEntry).find?
          (fun e => e.idType = "pmc")).map IdEntry.text :=
  claim_C5_theorem.2.2.1 doc333 [⟨"pubmed", "333"⟩, ⟨"pmc", "PMC333"⟩] rfl

/-- Claim C6: abstract extraction handles the three shapes — a plain string
as-is; a single structured block's text field with empty default; a sequence
of structured blocks each contributing an optional category and an optional
label prefix (each colon-space terminated) before its text, joined by
newlines.  In particular a BACKGROUND-category block followed by a
Methods-label block yields "BACKGROUND: text1\nMethods: text2". -/
theorem claim_C6_theorem :
    (∀ s : String, summaryOf (.str s) = .ok s) ∧
    (∀ (fs : List (String × XVal)) (t : String),
      dictGetD fs "#text" (.str "") = .str t → summaryOf (.obj fs) = .ok t) ∧
    (∀ fs : List (String × XVal),
      fs.find? (fun p => p.1 = "#text") = none → summaryOf (.obj fs) = .ok "") ∧
    (∀ bs : List AbsBlock,
      summaryOf (.arr (bs.map encodeBlock)) = .ok (String.intercalate "\n"
        (bs.filterMap (fun b => b.text.map (fun t => optPre b.cat ++ optPre b.label ++ t))))) ∧
    (∀ t1 t2 : String,
      summaryOf (.arr [encodeBlock ⟨some "BACKGROUND", none, some t1⟩,
                       encodeBlock ⟨none, some "Methods", some t2⟩])
        = .ok ("BACKGROUND: " ++ t1 ++ "\n" ++ ("Methods: " ++ t2))) := by
  refine ⟨fun s => rfl, ?_, ?_, summaryOf_encode, ?_⟩
  · intro fs t h
    rw [summaryOf_obj, h]
  · intro fs h
    rw [summaryOf_obj]
    unfold dictGetD
    rw [h]
  · intro t1 t2
    rw [show summaryOf (.arr [encodeBlock ⟨some "BACKGROUND", none, some t1⟩,
          encodeBlock ⟨none, some "Methods", some t2⟩])
        = _ from summaryOf_encode
            [⟨some "BACKGROUND", none, some t1⟩, ⟨none, some "Methods", some t2⟩]]
    simp [optPre, String.intercalate, String.intercalate.go, String.append_assoc]

/-- Witness for C6 at a single block carrying a text field. -/
theorem claim_C6_witness :
    summaryOf (.obj [("#text", XVal.str "hello")]) = .ok "hello" :=
  claim_C6_theorem.2.1 [("#text", XVal.str "hello")] "hello" rfl

/-- Claim C10: in the block-sequence shape a block without a text field
contributes nothing — not even its prefix: the summary is the newline-join
over exactly the blocks that have a text field, and a sequence of textless
blocks yields the empty summary. -/
theorem claim_C10_theorem :
    (∀ bs : List AbsBlock,
      summaryOf (.arr (bs.map encodeBlock)) = .ok (String.intercalate "\n"
        ((bs.filter (fun b => b.text.isSome)).map renderBlock))) ∧
    (∀ bs : List AbsBlock, (∀ b ∈ bs, b.text = none) →
      summaryOf (.arr (bs.map encodeBlock)) = .ok "") := by
  constructor
  · intro bs
    rw [summaryOf_encode, filterMap_text_eq]
  · intro bs h
    rw [summaryOf_encode]
    have : bs.filterMap (fun b => b.text.map (fun t => optPre b.cat ++ optPre b.label ++ t))
        = [] := by
      rw [List.filterMap_eq_nil_iff]
      intro b hb
      rw [h b hb]
      rfl
    rw [this]
    rfl

/-- Witness for C10 at a one-block sequence whose block has a category but
no text field. -/
theorem claim_C10_witness :
    summaryOf (.arr (([⟨some "BACKGROUND", none, none⟩] : List AbsBlock).map encodeBlock))
      = .ok "" :=
  claim_C10_theorem.2 [⟨some "BACKGROUND", none, none⟩]
    (fun b hb => by rw [List.mem_singleton] at hb; rw [hb])

/-- Claim C7: before transport `run` collapses every whitespace run of the
query to a single `+` separator (the submitted term holds no whitespace),
and truncates the collapsed query to `MAX_QUERY_LENGTH` = 128 characters:
the submitted term is never longer, and is exactly 128 characters whenever
the collapsed query reaches that length. -/
theorem claim_C7_theorem :
    (∀ a ws b : List Char,
      (∀ c ∈ a, ¬ pyIsSpace c) → ws ≠ [] → (∀ c ∈ ws, pyIsSpace c) →
      (∀ c, b.head? = some c → ¬ pyIsSpace c) →
      collapse_ws (String.mk (a ++ ws ++ b))
        = String.mk (a ++ '+' :: (collapse_ws (String.mk b)).toList)) ∧
    (∀ q : String, ∀ c ∈ (collapse_ws q).toList, pyIsSpace c = false) ∧
    (∀ q : String, (submitted_term q).length ≤ MAX_QUERY_LENGTH) ∧
    (∀ q : String, MAX_QUERY_LENGTH ≤ (collapse_ws q).length →
      (submitted_term q).length = MAX_QUERY_LENGTH) := by
  refine ⟨?_, ?_, ?_, ?_⟩
  · intro a ws b ha hne hws hb
    show String.mk (collapseAux false (a ++ ws ++ b)) = _
    rw [List.append_assoc, collapseAux_false_copy a (ws ++ b) ha]
    cases ws with
    | nil => exact absurd rfl hne
    | cons w ws2 =>
      rw [List.cons_append,
        collapseAux_cons_space_false w _ (hws w (List.mem_cons_self w ws2)),
        collapseAux_true_spaces ws2 b (fun c hc => hws c (List.mem_cons_of_mem w hc)),
        collapseAux_true_eq_false b hb]
      rfl
  · intro q c hc
    exact collapseAux_no_space q.toList false c hc
  · intro q
    show (List.take MAX_QUERY_LENGTH (collapse_ws q).toList).length ≤ MAX_QUERY_LENGTH
    rw [List.length_take]
    exact min_le_left _ _
  · intro q h
    show (List.take MAX_QUERY_LENGTH (collapse_ws q).toList).length = MAX_QUERY_LENGTH
    rw [List.length_take]
    exact min_eq_left h

set_option maxRecDepth 4000 in
/-- Witness for C7: the run of a space and a tab between `ab` and `cd`
collapses to a single `+`, and a 130-character query is cut to exactly
128. -/
theorem claim_C7_witness :
    collapse_ws (String.mk (['a', 'b'] ++ [' ', '\t'] ++ ['c', 'd']))
      = String.mk (['a', 'b'] ++ '+' :: (collapse_ws (String.mk ['c', 'd'])).toList) ∧
    (submitted_term (String.mk (List.replicate 130 'a'))).length = MAX_QUERY_LENGTH :=
  ⟨claim_C7_theorem.1 ['a', 'b'] [' ', '\t'] ['c', 'd'] (by decide) (by decide) (by decide)
      (fun c hc => by cases hc; decide),
   claim_C7_theorem.2.2.2 (String.mk (List.replicate 130 'a')) (by decide)⟩

end PubMed
